import Mathlib

set_option maxRecDepth 100000

/-!
Shallow embedding of the `numpy/bitgenerators` repository: the GJrand and
JSF64 C engines (`src/gjrand/gjrand.{h,c}`, `src/jsf64/jsf64.{h,c}`), the
Cython glue for PCG32, GJrand, JSF64 and DSFMT
(`bitgenerators/{pcg32,gjrand,dsfmt}.pyx`), and the state
save/restore blobs those classes expose.  Machine integers are modelled as
`Nat` reduced modulo `2 ^ 64` (or `2 ^ 32`) exactly where the C code
truncates; doubles are only ever copied by the code under study, so a
buffered double is modelled by its 64-bit pattern.
-/

/-- `rotl` from `src/gjrand/gjrand.h` / `src/jsf64/jsf64.h` (identical):
`(value << rot) | (value >> ((-rot) & 63))` on `uint64_t`; for `rot` an
`unsigned int`, `(-rot) & 63 = (64 - rot) % 64`. -/
def rotl64 (value : Nat) (rot : Nat) : Nat :=
  ((value <<< rot) % 2 ^ 64) ||| (value >>> ((64 - rot) % 64))

/-- The four `uint64_t` state words `s[0..3]` of `gjrand_state`. -/
structure GjrandWords where
  s0 : Nat
  s1 : Nat
  s2 : Nat
  s3 : Nat
  deriving DecidableEq, Repr

/-- `gjrand_next` from `src/gjrand/gjrand.h`: the 11-operation transition,
returning `s[0]` together with the updated words. -/
def gjrand_next (s : GjrandWords) : Nat × GjrandWords :=
  let s1 := (s.s1 + s.s2) % 2 ^ 64
  let s0 := rotl64 s.s0 32
  let s2 := s.s2 ^^^ s1
  let s3 := (s.s3 + 0x55aa96a5) % 2 ^ 64
  let s0 := (s0 + s1) % 2 ^ 64
  let s2 := rotl64 s2 23
  let s1 := s1 ^^^ s0
  let s0 := (s0 + s2) % 2 ^ 64
  let s1 := rotl64 s1 19
  let s2 := (s2 + s0) % 2 ^ 64
  let s1 := (s1 + s3) % 2 ^ 64
  (s0, ⟨s0, s1, s2, s3⟩)

/-- `gjrand_state` from `src/gjrand/gjrand.h`: state words plus the
32-from-64 splitter cache (`has_uint32`, `uinteger`). -/
structure GjrandState where
  s : GjrandWords
  has_uint32 : Bool
  uinteger : Nat
  deriving DecidableEq, Repr

/-- `gjrand_next64`: calls `gjrand_next` on the words, leaving the splitter
cache untouched. -/
def gjrand_next64 (st : GjrandState) : Nat × GjrandState :=
  let r := gjrand_next st.s
  (r.1, { st with s := r.2 })

/-- `gjrand_next32` from `src/gjrand/gjrand.h`: the 32-from-64 output
splitter. -/
def gjrand_next32 (st : GjrandState) : Nat × GjrandState :=
  if st.has_uint32 then
    (st.uinteger, { st with has_uint32 := false })
  else
    let r := gjrand_next st.s
    (r.1 % 2 ^ 32, { s := r.2, has_uint32 := true, uinteger := r.1 >>> 32 })

/-- The `for (i=0; i<n; i++) (void)gjrand_next(state->s);` warm-up loop of
`gjrand_set_seed` (`src/gjrand/gjrand.c`). -/
def gjrand_seed_loop : Nat → GjrandWords → GjrandWords
  | 0, s => s
  | n + 1, s => gjrand_seed_loop n (gjrand_next s).2

/-- `gjrand_set_seed` from `src/gjrand/gjrand.c`: load two entropy words
into `s[0]`, `s[1]`, constants `2000001` and `0` into `s[2]`, `s[3]`, then
14 discarded transitions. -/
def gjrand_set_seed (seed0 seed1 : Nat) : GjrandWords :=
  gjrand_seed_loop 14 ⟨seed0 % 2 ^ 64, seed1 % 2 ^ 64, 2000001, 0⟩

/-- `GJrand.__init__` (`bitgenerators/gjrand.pyx`): seed the C state from
two entropy words, then `_reset_state_variables` clears the splitter
cache. -/
def GJrand.fresh (e0 e1 : Nat) : GjrandState :=
  ⟨gjrand_set_seed e0 e1, false, 0⟩

/-- The four `uint64_t` state words `s[0..3]` of `jsf64_state`. -/
structure Jsf64Words where
  s0 : Nat
  s1 : Nat
  s2 : Nat
  s3 : Nat
  deriving DecidableEq, Repr

/-- `jsf64_next` from `src/jsf64/jsf64.h`: the rotate-and-combine
transition, returning the new `s[3]` together with the updated words. -/
def jsf64_next (s : Jsf64Words) : Nat × Jsf64Words :=
  let e := (s.s0 + 2 ^ 64 - rotl64 s.s1 7) % 2 ^ 64
  let s0 := s.s1 ^^^ rotl64 s.s2 13
  let s1 := (s.s2 + rotl64 s.s3 37) % 2 ^ 64
  let s2 := (s.s3 + e) % 2 ^ 64
  let s3 := (e + s0) % 2 ^ 64
  (s3, ⟨s0, s1, s2, s3⟩)

/-- `jsf64_state` from `src/jsf64/jsf64.h`. -/
structure Jsf64State where
  s : Jsf64Words
  has_uint32 : Bool
  uinteger : Nat
  deriving DecidableEq, Repr

/-- `jsf64_next64`: calls `jsf64_next` on the words, leaving the splitter
cache untouched. -/
def jsf64_next64 (st : Jsf64State) : Nat × Jsf64State :=
  let r := jsf64_next st.s
  (r.1, { st with s := r.2 })

/-- `jsf64_next32` from `src/jsf64/jsf64.h`: the 32-from-64 output
splitter. -/
def jsf64_next32 (st : Jsf64State) : Nat × Jsf64State :=
  if st.has_uint32 then
    (st.uinteger, { st with has_uint32 := false })
  else
    let r := jsf64_next st.s
    (r.1 % 2 ^ 32, { s := r.2, has_uint32 := true, uinteger := r.1 >>> 32 })

/-- The 20-iteration warm-up loop of `jsf64_set_seed`
(`src/jsf64/jsf64.c`). -/
def jsf64_seed_loop : Nat → Jsf64Words → Jsf64Words
  | 0, s => s
  | n + 1, s => jsf64_seed_loop n (jsf64_next s).2

/-- `jsf64_set_seed` from `src/jsf64/jsf64.c`: constant `0xf1ea5eed` into
`s[0]`, three entropy words into `s[1..3]`, then 20 discarded
transitions. -/
def jsf64_set_seed (seed0 seed1 seed2 : Nat) : Jsf64Words :=
  jsf64_seed_loop 20 ⟨0xf1ea5eed, seed0 % 2 ^ 64, seed1 % 2 ^ 64, seed2 % 2 ^ 64⟩

/-- `JSF64.__init__` (`bitgenerators/jsf64.pyx` part of the sources): seed
the C state from three entropy words, then clear the splitter cache. -/
def JSF64.fresh (e0 e1 e2 : Nat) : Jsf64State :=
  ⟨jsf64_set_seed e0 e1 e2, false, 0⟩

/-- `self._bitgen.next_raw = &gjrand_uint64` (`bitgenerators/gjrand.pyx`). -/
def gjrand_raw (st : GjrandState) : Nat × GjrandState :=
  gjrand_next64 st

/-- `self._bitgen.next_raw = &jsf64_uint64` (`bitgenerators/jsf64.pyx`). -/
def jsf64_raw (st : Jsf64State) : Nat × Jsf64State :=
  jsf64_next64 st

/-- Iterated `gjrand_next64`, discarding the outputs. -/
def gjrand_skip64 (n : Nat) (st : GjrandState) : GjrandState :=
  (fun t => (gjrand_next64 t).2)^[n] st

/-- Iterated `jsf64_next64`, discarding the outputs. -/
def jsf64_skip64 (n : Nat) (st : Jsf64State) : Jsf64State :=
  (fun t => (jsf64_next64 t).2)^[n] st

/-- `pcg_state_setseq_64` (`bitgenerators/pcg32.pyx` extern block): the
LCG value and the stream increment, both `uint64_t`. -/
structure Pcg32Raw where
  state : Nat
  inc : Nat
  deriving DecidableEq, Repr

/-- Modelled from the spec: the fixed 64-bit LCG multiplier of the
reference PCG construction (`src/pcg32` is not among the sources; §4.2
requires reproducing the reference construction bit-for-bit). -/
def pcg32_mult : Nat := 6364136223846793005

/-- Modelled from the spec: one LCG step of §4.2, `state' = a*state + c`
modulo `2^64` with the stream increment as `c`. -/
def pcg_step (st : Pcg32Raw) : Pcg32Raw :=
  { st with state := (pcg32_mult * st.state + st.inc) % 2 ^ 64 }

/-- `ror32`: 32-bit right rotation used by the reference PCG output
permutation. -/
def ror32 (value : Nat) (rot : Nat) : Nat :=
  ((value >>> (rot % 32)) ||| (value <<< ((32 - rot % 32) % 32))) % 2 ^ 32

/-- Modelled from the spec: `pcg32_next32` (§4.2; `src/pcg32` is not among
the sources).  One LCG step; the output is the reference XSH-RR
permutation of the pre-update state: xorshift then a rotate selected by
the top bits. -/
def pcg32_next32 (st : Pcg32Raw) : Nat × Pcg32Raw :=
  let old := st.state
  let xorshifted := (((old >>> 18) ^^^ old) >>> 27) % 2 ^ 32
  let rot := old >>> 59
  (ror32 xorshifted rot, pcg_step st)

/-- `pcg32_raw` (`bitgenerators/pcg32.pyx`):
`return <uint64_t>pcg32_next32(<pcg32_state *> st)` — a single 32-bit
draw zero-extended to 64 bits. -/
def pcg32_raw (st : Pcg32Raw) : Nat × Pcg32Raw :=
  pcg32_next32 st

/-- Modelled from the spec: the closed-form advance of §4.2 — binary
square-and-multiply evaluation of the affine composition, producing
multiplier `a^delta` and increment `c*(a^(delta-1)+...+1)` modulo `2^64`
(the reference `pcg_advance_lcg_64` loop; `src/pcg32` is not among the
sources). -/
def pcg_advance_lcg (delta curMult curPlus accMult accPlus : Nat) : Nat × Nat :=
  if delta = 0 then (accMult, accPlus)
  else
    let accMult' := if delta % 2 = 1 then (accMult * curMult) % 2 ^ 64 else accMult
    let accPlus' := if delta % 2 = 1 then (accPlus * curMult + curPlus) % 2 ^ 64 else accPlus
    pcg_advance_lcg (delta / 2) ((curMult * curMult) % 2 ^ 64)
      (((curMult + 1) * curPlus) % 2 ^ 64) accMult' accPlus'
termination_by delta
decreasing_by exact Nat.div_lt_self (Nat.pos_of_ne_zero (by assumption)) (by omega)

/-- Modelled from the spec: `pcg32_advance_state` — apply the closed-form
`delta`-step composition to the state, leaving the increment unchanged. -/
def pcg32_advance_state (st : Pcg32Raw) (delta : Nat) : Pcg32Raw :=
  let mp := pcg_advance_lcg delta pcg32_mult st.inc 1 0
  { st with state := (mp.1 * st.state + mp.2) % 2 ^ 64 }

/-- Python-level errors raised by the `.pyx` state setters. -/
inductive PyErr
  | typeError
  | valueError
  | indexError
  deriving DecidableEq, Repr

/-- The Python `dict` accepted by `PCG32.state` (`bitgenerators/pcg32.pyx`):
either not a dict at all, or a dict carrying the `bit_generator` tag and
the `state`/`inc` entries of the inner `state` dict. -/
inductive Pcg32Blob
  | notDict
  | dict (bitGenerator : String) (state : Nat) (inc : Nat)
  deriving DecidableEq, Repr

/-- `PCG32.state` getter (`bitgenerators/pcg32.pyx`). -/
def PCG32.get_state (st : Pcg32Raw) : Pcg32Blob :=
  .dict "PCG32" st.state st.inc

/-- `PCG32.state` setter (`bitgenerators/pcg32.pyx`): `TypeError` unless
the value is a dict, `ValueError` unless the tag matches `"PCG32"`,
otherwise overwrite `state` and `inc`.  A raised error leaves the engine
state as it was. -/
def PCG32.set_state (st : Pcg32Raw) (b : Pcg32Blob) : Pcg32Raw × Option PyErr :=
  match b with
  | .notDict => (st, some .typeError)
  | .dict tag state inc =>
    if tag = "PCG32" then (⟨state, inc⟩, none)
    else (st, some .valueError)

/-- `PCG32.advance` (`bitgenerators/pcg32.pyx`): `wrap_int(delta, 64)`
reduces the step count modulo `2^64`, then the C advance is applied. -/
def PCG32.advance (st : Pcg32Raw) (delta : Nat) : Pcg32Raw :=
  pcg32_advance_state st (delta % 2 ^ 64)

/-- `PCG32.jump_inplace` (`bitgenerators/pcg32.pyx`):
`self.advance(0x9e3779b97f4a7c16 * int(jumps))`. -/
def PCG32.jump_inplace (st : Pcg32Raw) (jumps : Nat) : Pcg32Raw :=
  PCG32.advance st (0x9e3779b97f4a7c16 * jumps)

/-- `PCG32.jumped` (`bitgenerators/pcg32.pyx`): construct a fresh engine
(`fresh`, whose seeded state is irrelevant because it is immediately
overwritten), copy `self.state` into it through the state property, jump
the copy in place, and return `(self, copy)` — `self` is never written. -/
def PCG32.jumped (fresh st : Pcg32Raw) (jumps : Nat) : Pcg32Raw × Pcg32Raw :=
  let clone := (PCG32.set_state fresh (PCG32.get_state st)).1
  (st, PCG32.jump_inplace clone jumps)

/-- The Python `dict` exposed by `GJrand.state` / `JSF64.state`
(`bitgenerators/gjrand.pyx`, `bitgenerators/jsf64.pyx`): the tag, the
4-element `uint64` state vector, and the splitter-cache fields. -/
inductive SplitBlob
  | notDict
  | dict (bitGenerator : String) (stateArr : List Nat) (hasUint32 : Bool)
      (uinteger : Nat)
  deriving DecidableEq, Repr

/-- `GJrand.state` getter (`bitgenerators/gjrand.pyx`): `gjrand_get_state`
copies `s[0..3]` into a 4-element vector and reads the cache fields. -/
def GJrand.get_state (st : GjrandState) : SplitBlob :=
  .dict "GJrand" [st.s.s0, st.s.s1, st.s.s2, st.s.s3] st.has_uint32 st.uinteger

/-- `GJrand.state` setter (`bitgenerators/gjrand.pyx`): `TypeError` unless
a dict, `ValueError` unless the tag is `"GJrand"`; then
`state_vec[:] = value['state']['state']` copies into a fresh 4-element
numpy temporary (failing on a length mismatch before the engine state is
touched; numpy length-1 broadcasting is not modelled) and
`gjrand_set_state` overwrites `s[0..3]` and the cache fields. -/
def GJrand.set_state (st : GjrandState) (b : SplitBlob) :
    GjrandState × Option PyErr :=
  match b with
  | .notDict => (st, some .typeError)
  | .dict tag arr hasU uint =>
    if tag = "GJrand" then
      match arr with
      | [a, b, c, d] => (⟨⟨a, b, c, d⟩, hasU, uint⟩, none)
      | _ => (st, some .valueError)
    else (st, some .valueError)

/-- `JSF64.state` getter (`bitgenerators/jsf64.pyx`). -/
def JSF64.get_state (st : Jsf64State) : SplitBlob :=
  .dict "JSF64" [st.s.s0, st.s.s1, st.s.s2, st.s.s3] st.has_uint32 st.uinteger

/-- `JSF64.state` setter (`bitgenerators/jsf64.pyx`); same shape as the
GJrand setter with tag `"JSF64"`. -/
def JSF64.set_state (st : Jsf64State) (b : SplitBlob) :
    Jsf64State × Option PyErr :=
  match b with
  | .notDict => (st, some .typeError)
  | .dict tag arr hasU uint =>
    if tag = "JSF64" then
      match arr with
      | [a, b, c, d] => (⟨⟨a, b, c, d⟩, hasU, uint⟩, none)
      | _ => (st, some .valueError)
    else (st, some .valueError)

/-- The DSFMT engine state held by `s_dsfmt_state`
(`bitgenerators/dsfmt.pyx`): the 192 (`DSFMT_N_PLUS_1`) 128-bit status
blocks flattened — exactly as the pyx getter/setter walk them — into
2×192 = 384 `uint64` words, the `idx` cursor, the 382-slot
(`DSFMT_N64`) double cache (each double modelled by its 64-bit pattern),
and the `buffer_loc` cursor. -/
structure DsfmtState where
  status : List Nat
  idx : Int
  bufferLoc : Int
  bufferedUniforms : List Nat
  deriving DecidableEq, Repr

/-- The Python `dict` exposed by `DSFMT.state` (`bitgenerators/dsfmt.pyx`). -/
inductive DsfmtBlob
  | notDict
  | dict (bitGenerator : String) (stateArr : List Nat) (idx : Int)
      (bufferLoc : Int) (bufferedUniforms : List Nat)
  deriving DecidableEq, Repr

/-- An in-place indexed copy loop
`for i in range(n): dst[i] = src[i]`, as the DSFMT setter performs it:
element `i` of `dst` is overwritten by `src[i]`; a read past the end of
`src` raises `IndexError`, leaving the writes made so far in place. -/
def copyLoop : Nat → Nat → List Nat → List Nat → List Nat × Bool
  | 0, _, dst, _ => (dst, false)
  | k + 1, i, dst, src =>
    match src[i]? with
    | none => (dst, true)
    | some x => copyLoop k (i + 1) (dst.set i x) src

/-- `DSFMT.state` getter (`bitgenerators/dsfmt.pyx`): the 384 status words
in `u[0], u[1]` order per block, `idx`, `buffer_loc` and the 382 buffered
doubles. -/
def DSFMT.get_state (st : DsfmtState) : DsfmtBlob :=
  .dict "DSFMT" st.status st.idx st.bufferLoc st.bufferedUniforms

/-- `DSFMT.state` setter (`bitgenerators/dsfmt.pyx`): `TypeError` unless a
dict, `ValueError` unless the tag is `"DSFMT"`; then — with no further
validation — the 384 status words are copied in place, `idx` is assigned,
the 382 buffered doubles are copied in place, and `buffer_loc` is
assigned.  An `IndexError` from a too-short input array aborts the
assignment mid-way, keeping every write already made. -/
def DSFMT.set_state (st : DsfmtState) (b : DsfmtBlob) :
    DsfmtState × Option PyErr :=
  match b with
  | .notDict => (st, some .typeError)
  | .dict tag stateArr idx bufLoc bufUnif =>
    if tag = "DSFMT" then
      let c1 := copyLoop 384 0 st.status stateArr
      if c1.2 then ({ st with status := c1.1 }, some .indexError)
      else
        let st1 : DsfmtState := { st with status := c1.1, idx := idx }
        let c2 := copyLoop 382 0 st1.bufferedUniforms bufUnif
        if c2.2 then ({ st1 with bufferedUniforms := c2.1 }, some .indexError)
        else ({ st1 with bufferedUniforms := c2.1, bufferLoc := bufLoc }, none)
    else (st, some .valueError)

/-- `DSFMT._reset_state_variables` (`bitgenerators/dsfmt.pyx`):
`buffer_loc = DSFMT_N64 = 382`, marking the double cache empty. -/
def DSFMT.reset_state_variables (st : DsfmtState) : DsfmtState :=
  { st with bufferLoc := 382 }

/-- `DSFMT.jump_inplace` (`bitgenerators/dsfmt.pyx`): apply `dsfmt_jump`
`iter` times, then clear the buffer via `_reset_state_variables`.  The C
`dsfmt_jump` (`src/dsfmt`, not among the sources) is taken as an
arbitrary state transformation `J`. -/
def DSFMT.jump_inplace (J : DsfmtState → DsfmtState) (iter : Nat)
    (st : DsfmtState) : DsfmtState :=
  DSFMT.reset_state_variables (J^[iter] st)

/-- `DSFMT.jumped` (`bitgenerators/dsfmt.pyx`): construct a fresh engine
(`fresh`, overwritten immediately), copy `self.state` into it through the
state property, jump the copy in place, and return `(self, copy)`.  An
error escaping the state setter propagates. -/
def DSFMT.jumped (J : DsfmtState → DsfmtState) (fresh st : DsfmtState)
    (jumps : Nat) : (DsfmtState × DsfmtState) × Option PyErr :=
  let c := DSFMT.set_state fresh (DSFMT.get_state st)
  match c.2 with
  | some e => ((st, c.1), some e)
  | none => ((st, DSFMT.jump_inplace J jumps c.1), none)

/-- Modelled from the spec: `dsfmt_next_double` (`src/dsfmt`, not among
the sources).  Per §4.5/§3, `buffer_loc == 382` signals an empty cache:
the recurrence pass `R` — abstract here — regenerates the whole 382-slot
cache from the status array (updating status and index) and the cursor
restarts at the front; otherwise the cached double at `buffer_loc` is
consumed and the cursor advances. -/
def dsfmt_next_double (R : List Nat → Int → (List Nat × Int) × List Nat)
    (st : DsfmtState) : Nat × DsfmtState :=
  if st.bufferLoc = 382 then
    let r := R st.status st.idx
    (r.2.headI,
      { status := r.1.1, idx := r.1.2, bufferLoc := 1, bufferedUniforms := r.2 })
  else
    (st.bufferedUniforms.getD st.bufferLoc.toNat 0,
      { st with bufferLoc := st.bufferLoc + 1 })


/-- A draw request forwarded through the facade's function slots. -/
inductive DrawOp
  | u32
  | u64
  deriving DecidableEq, Repr

/-- Run a sequence of draw requests against a GJrand engine, collecting
the outputs. -/
def gjrand_run : List DrawOp → GjrandState → List Nat
  | [], _ => []
  | .u32 :: ops, st => (gjrand_next32 st).1 :: gjrand_run ops (gjrand_next32 st).2
  | .u64 :: ops, st => (gjrand_next64 st).1 :: gjrand_run ops (gjrand_next64 st).2

/-- Run a sequence of draw requests against a JSF64 engine, collecting
the outputs. -/
def jsf64_run : List DrawOp → Jsf64State → List Nat
  | [], _ => []
  | .u32 :: ops, st => (jsf64_next32 st).1 :: jsf64_run ops (jsf64_next32 st).2
  | .u64 :: ops, st => (jsf64_next64 st).1 :: jsf64_run ops (jsf64_next64 st).2

/-! ### Helper lemmas -/

theorem gjrand_seed_loop_eq_iterate (n : Nat) (s : GjrandWords) :
    gjrand_seed_loop n s = (fun t => (gjrand_next t).2)^[n] s := by
  induction n generalizing s with
  | zero => rfl
  | succ k ih =>
    rw [gjrand_seed_loop, ih, Function.iterate_succ_apply]

theorem jsf64_seed_loop_eq_iterate (n : Nat) (s : Jsf64Words) :
    jsf64_seed_loop n s = (fun t => (jsf64_next t).2)^[n] s := by
  induction n generalizing s with
  | zero => rfl
  | succ k ih =>
    rw [jsf64_seed_loop, ih, Function.iterate_succ_apply]

theorem gjrand_skip64_cache (n : Nat) (g : GjrandState) :
    (gjrand_skip64 n g).has_uint32 = g.has_uint32 ∧
      (gjrand_skip64 n g).uinteger = g.uinteger := by
  induction n with
  | zero => exact ⟨rfl, rfl⟩
  | succ k ih =>
    unfold gjrand_skip64 at ih ⊢
    rw [Function.iterate_succ_apply']
    simpa [gjrand_next64] using ih

theorem jsf64_skip64_cache (n : Nat) (j : Jsf64State) :
    (jsf64_skip64 n j).has_uint32 = j.has_uint32 ∧
      (jsf64_skip64 n j).uinteger = j.uinteger := by
  induction n with
  | zero => exact ⟨rfl, rfl⟩
  | succ k ih =>
    unfold jsf64_skip64 at ih ⊢
    rw [Function.iterate_succ_apply']
    simpa [jsf64_next64] using ih

/-! ### Claims -/

/-- Claim C1, as frozen, is false on the code: from a freshly seeded
GJrand state (entropy words 0, 0) the first `next_uint32` output is the
LOW half-word of the `next_uint64` value, not the high one, and the
second is the high half-word, not the low one. -/
theorem splitter_high_first_refuted :
    ¬ ((gjrand_next32 (GJrand.fresh 0 0)).1 =
          (gjrand_next64 (GJrand.fresh 0 0)).1 >>> 32 ∧
        (gjrand_next32 (gjrand_next32 (GJrand.fresh 0 0)).2).1 =
          (gjrand_next64 (GJrand.fresh 0 0)).1 % 2 ^ 32) := by
  decide

/-- Claim C1, amended: for GJrand and JSF64, starting from a freshly
seeded state (empty half-word cache), calling `next_uint32` twice yields
first the LOW half-word and then the HIGH half-word of the 64-bit value
that a single `next_uint64` call would have produced from that same
state. -/
theorem splitter_low_then_high (e0 e1 f0 f1 f2 : Nat) :
    (gjrand_next32 (GJrand.fresh e0 e1)).1 =
        (gjrand_next64 (GJrand.fresh e0 e1)).1 % 2 ^ 32 ∧
      (gjrand_next32 (gjrand_next32 (GJrand.fresh e0 e1)).2).1 =
        (gjrand_next64 (GJrand.fresh e0 e1)).1 >>> 32 ∧
      (jsf64_next32 (JSF64.fresh f0 f1 f2)).1 =
        (jsf64_next64 (JSF64.fresh f0 f1 f2)).1 % 2 ^ 32 ∧
      (jsf64_next32 (jsf64_next32 (JSF64.fresh f0 f1 f2)).2).1 =
        (jsf64_next64 (JSF64.fresh f0 f1 f2)).1 >>> 32 := by
  refine ⟨?_, ?_, ?_, ?_⟩ <;>
    simp [GJrand.fresh, JSF64.fresh, gjrand_next32, jsf64_next32,
      gjrand_next64, jsf64_next64]

/-- Claim C4: for GJrand and JSF64, `next_uint32` follows the
output-splitter algorithm — with a cached half-word it clears the flag
and returns the cache without touching the state words; otherwise it
performs one 64-bit transition, returns its low 32 bits and caches the
high 32 bits with the flag set; the flag alternates on every call. -/
theorem next32_splitter_algorithm (g : GjrandState) (j : Jsf64State) :
    (g.has_uint32 = true →
        gjrand_next32 g = (g.uinteger, { g with has_uint32 := false })) ∧
      (g.has_uint32 = false →
        gjrand_next32 g =
          ((gjrand_next64 g).1 % 2 ^ 32,
            ⟨(gjrand_next64 g).2.s, true, (gjrand_next64 g).1 >>> 32⟩)) ∧
      (gjrand_next32 g).2.has_uint32 = !g.has_uint32 ∧
      (j.has_uint32 = true →
        jsf64_next32 j = (j.uinteger, { j with has_uint32 := false })) ∧
      (j.has_uint32 = false →
        jsf64_next32 j =
          ((jsf64_next64 j).1 % 2 ^ 32,
            ⟨(jsf64_next64 j).2.s, true, (jsf64_next64 j).1 >>> 32⟩)) ∧
      (jsf64_next32 j).2.has_uint32 = !j.has_uint32 := by
  refine ⟨fun h => ?_, fun h => ?_, ?_, fun h => ?_, fun h => ?_, ?_⟩
  · simp [gjrand_next32, h]
  · simp [gjrand_next32, gjrand_next64, h]
  · cases hg : g.has_uint32 <;> simp [gjrand_next32, hg]
  · simp [jsf64_next32, h]
  · simp [jsf64_next32, jsf64_next64, h]
  · cases hj : j.has_uint32 <;> simp [jsf64_next32, hj]

/-- Witness for C4 at concrete states: a GJrand state with a cached
half-word, and a JSF64 state without one. -/
theorem next32_splitter_algorithm_witness :
    gjrand_next32 ⟨⟨1, 2, 3, 4⟩, true, 7⟩ = (7, ⟨⟨1, 2, 3, 4⟩, false, 7⟩) ∧
      jsf64_next32 ⟨⟨1, 2, 3, 4⟩, false, 7⟩ =
        ((jsf64_next64 ⟨⟨1, 2, 3, 4⟩, false, 7⟩).1 % 2 ^ 32,
          ⟨(jsf64_next64 ⟨⟨1, 2, 3, 4⟩, false, 7⟩).2.s, true,
            (jsf64_next64 ⟨⟨1, 2, 3, 4⟩, false, 7⟩).1 >>> 32⟩) :=
  ⟨(next32_splitter_algorithm ⟨⟨1, 2, 3, 4⟩, true, 7⟩
      ⟨⟨1, 2, 3, 4⟩, false, 7⟩).1 rfl,
    (next32_splitter_algorithm ⟨⟨1, 2, 3, 4⟩, true, 7⟩
      ⟨⟨1, 2, 3, 4⟩, false, 7⟩).2.2.2.2.1 rfl⟩

/-- Claim C6: GJrand seeding loads the two entropy words into `s[0]`,
`s[1]`, the constants `2000001` and `0` into `s[2]`, `s[3]`, then runs
exactly 14 discarded warm-up transitions; each transition folds the odd
constant `0x55aa96a5` into `s[3]` and returns `s[0]` after the full
sequence. -/
theorem gjrand_seed_and_transition_structure (e0 e1 : Nat) (s : GjrandWords) :
    gjrand_set_seed e0 e1 =
        (fun t => (gjrand_next t).2)^[14] ⟨e0 % 2 ^ 64, e1 % 2 ^ 64, 2000001, 0⟩ ∧
      (gjrand_next s).2.s3 = (s.s3 + 0x55aa96a5) % 2 ^ 64 ∧
      (gjrand_next s).1 = (gjrand_next s).2.s0 ∧
      0x55aa96a5 % 2 = 1 := by
  exact ⟨gjrand_seed_loop_eq_iterate 14 _, rfl, rfl, rfl⟩

/-- Claim C7: JSF64 seeding loads the constant `0xf1ea5eed` into `s[0]`
and the three entropy words into `s[1..3]`, then runs exactly 20
discarded warm-up transitions; each transition outputs the new `s[3]`. -/
theorem jsf64_seed_and_transition_structure (e0 e1 e2 : Nat) (s : Jsf64Words) :
    jsf64_set_seed e0 e1 e2 =
        (fun t => (jsf64_next t).2)^[20]
          ⟨0xf1ea5eed, e0 % 2 ^ 64, e1 % 2 ^ 64, e2 % 2 ^ 64⟩ ∧
      (jsf64_next s).1 = (jsf64_next s).2.s3 := by
  exact ⟨jsf64_seed_loop_eq_iterate 20 _, rfl⟩

/-- Claim C10: for GJrand and JSF64, `next_uint64` (and hence `next_raw`)
neither reads nor writes the splitter cache: its result is the same for
every cache content and it copies the cache through unchanged; any number
of intervening 64-bit draws leaves an outstanding half-word in place, and
the following `next_uint32` still returns it. -/
theorem next64_preserves_split_cache (g : GjrandState) (j : Jsf64State)
    (n : Nat) :
    (∀ b u, gjrand_next64 ⟨g.s, b, u⟩ =
        ((gjrand_next g.s).1, ⟨(gjrand_next g.s).2, b, u⟩)) ∧
      (gjrand_skip64 n g).has_uint32 = g.has_uint32 ∧
      (gjrand_skip64 n g).uinteger = g.uinteger ∧
      (g.has_uint32 = true →
        (gjrand_next32 (gjrand_skip64 n g)).1 = g.uinteger) ∧
      (∀ b u, jsf64_next64 ⟨j.s, b, u⟩ =
        ((jsf64_next j.s).1, ⟨(jsf64_next j.s).2, b, u⟩)) ∧
      (jsf64_skip64 n j).has_uint32 = j.has_uint32 ∧
      (jsf64_skip64 n j).uinteger = j.uinteger ∧
      (j.has_uint32 = true →
        (jsf64_next32 (jsf64_skip64 n j)).1 = j.uinteger) := by
  obtain ⟨hg1, hg2⟩ := gjrand_skip64_cache n g
  obtain ⟨hj1, hj2⟩ := jsf64_skip64_cache n j
  refine ⟨fun b u => rfl, hg1, hg2, fun h => ?_, fun b u => rfl, hj1, hj2,
    fun h => ?_⟩
  · simp [gjrand_next32, hg1, h, hg2]
  · simp [jsf64_next32, hj1, h, hj2]

/-- Witness for C10: two intervening 64-bit draws keep a cached half-word
(42 or 9) in place for the next 32-bit draw. -/
theorem next64_preserves_split_cache_witness :
    (gjrand_next32 (gjrand_skip64 2 ⟨⟨1, 2, 3, 4⟩, true, 42⟩)).1 = 42 ∧
      (jsf64_next32 (jsf64_skip64 3 ⟨⟨5, 6, 7, 8⟩, true, 9⟩)).1 = 9 :=
  ⟨(next64_preserves_split_cache ⟨⟨1, 2, 3, 4⟩, true, 42⟩
      ⟨⟨5, 6, 7, 8⟩, true, 9⟩ 2).2.2.2.1 rfl,
    (next64_preserves_split_cache ⟨⟨1, 2, 3, 4⟩, true, 42⟩
      ⟨⟨5, 6, 7, 8⟩, true, 9⟩ 3).2.2.2.2.2.2.2 rfl⟩

theorem copyLoop_eq : ∀ (k i : Nat) (dst src : List Nat),
    dst.length = src.length → i + k = src.length →
    (∀ m, m < i → dst[m]? = src[m]?) →
    copyLoop k i dst src = (src, false) := by
  intro k
  induction k with
  | zero =>
    intro i dst src hlen hik hagree
    have hds : dst = src := by
      apply List.ext_getElem?
      intro n
      by_cases hn : n < i
      · exact hagree n hn
      · rw [List.getElem?_eq_none (by omega), List.getElem?_eq_none (by omega)]
    rw [hds, copyLoop]
  | succ k ih =>
    intro i dst src hlen hik hagree
    have hi : i < src.length := by omega
    have hx : src[i]? = some src[i] := List.getElem?_eq_getElem hi
    rw [copyLoop, hx]
    apply ih
    · rw [List.length_set]; exact hlen
    · omega
    · intro m hm
      by_cases hmi : m = i
      · subst hmi
        rw [List.getElem?_set_self (by omega), hx]
      · rw [List.getElem?_set_ne (fun h => hmi h.symm)]
        exact hagree m (by omega)

theorem copyLoop_nil (k i : Nat) (dst : List Nat) :
    copyLoop (k + 1) i dst [] = (dst, true) := by
  rw [copyLoop]
  rfl

theorem dsfmt_set_state_copies (dst src : DsfmtState)
    (h1 : src.status.length = 384) (h2 : src.bufferedUniforms.length = 382)
    (h3 : dst.status.length = 384) (h4 : dst.bufferedUniforms.length = 382) :
    DSFMT.set_state dst (DSFMT.get_state src) = (src, none) := by
  have c1 : copyLoop 384 0 dst.status src.status = (src.status, false) :=
    copyLoop_eq 384 0 _ _ (by omega) (by omega) (fun m hm => absurd hm (by omega))
  have c2 : copyLoop 382 0 dst.bufferedUniforms src.bufferedUniforms =
      (src.bufferedUniforms, false) :=
    copyLoop_eq 382 0 _ _ (by omega) (by omega) (fun m hm => absurd hm (by omega))
  simp [DSFMT.set_state, DSFMT.get_state, c1, c2]

/-- Claim C2, as frozen, is false on the code: restoring a DSFMT state
from a dict with a correct tag and a full 384-word status array but an
empty (wrong-length) buffered-uniforms array does raise an error, yet
only after the previously valid status words have been overwritten; and
restoring with an index far outside the valid status range (999) is
accepted without any error. -/
theorem dsfmt_malformed_restore_mutates :
    ((DSFMT.set_state ⟨List.replicate 384 5, 3, 10, List.replicate 382 7⟩
          (.dict "DSFMT" (List.replicate 384 9) 0 382 [])).2 =
        some .indexError ∧
      (DSFMT.set_state ⟨List.replicate 384 5, 3, 10, List.replicate 382 7⟩
          (.dict "DSFMT" (List.replicate 384 9) 0 382 [])).1 ≠
        ⟨List.replicate 384 5, 3, 10, List.replicate 382 7⟩) ∧
      (DSFMT.set_state ⟨List.replicate 384 5, 3, 10, List.replicate 382 7⟩
          (.dict "DSFMT" (List.replicate 384 9) 999 382
            (List.replicate 382 7))).2 = none := by
  decide

/-- Claim C2, amended: for every engine a wrong-typed state blob or a
mismatched algorithm tag is reported synchronously and rejected before
any mutation, leaving the existing state unchanged; DSFMT however
performs no malformedness validation — restoring from a correctly tagged
dict whose buffered-uniforms array is too short raises only after the
full status array and index have been overwritten, and an out-of-range
index is stored without error. -/
theorem restore_rejects_wrong_type_and_tag (p : Pcg32Raw) (g : GjrandState)
    (j : Jsf64State) (d : DsfmtState) :
    PCG32.set_state p .notDict = (p, some .typeError) ∧
      GJrand.set_state g .notDict = (g, some .typeError) ∧
      JSF64.set_state j .notDict = (j, some .typeError) ∧
      DSFMT.set_state d .notDict = (d, some .typeError) ∧
      (∀ tag s i, tag ≠ "PCG32" →
        PCG32.set_state p (.dict tag s i) = (p, some .valueError)) ∧
      (∀ tag arr h u, tag ≠ "GJrand" →
        GJrand.set_state g (.dict tag arr h u) = (g, some .valueError)) ∧
      (∀ tag arr h u, tag ≠ "JSF64" →
        JSF64.set_state j (.dict tag arr h u) = (j, some .valueError)) ∧
      (∀ tag arr i bl bu, tag ≠ "DSFMT" →
        DSFMT.set_state d (.dict tag arr i bl bu) = (d, some .valueError)) ∧
      (∀ arr i bl, arr.length = 384 → d.status.length = 384 →
        DSFMT.set_state d (.dict "DSFMT" arr i bl []) =
          (⟨arr, i, d.bufferLoc, d.bufferedUniforms⟩, some .indexError)) := by
  refine ⟨rfl, rfl, rfl, rfl, ?_, ?_, ?_, ?_, ?_⟩
  · intro tag s i h
    simp [PCG32.set_state, h]
  · intro tag arr hu u h
    simp [GJrand.set_state, h]
  · intro tag arr hu u h
    simp [JSF64.set_state, h]
  · intro tag arr i bl bu h
    simp [DSFMT.set_state, h]
  · intro arr i bl harr hd
    have c1 : copyLoop 384 0 d.status arr = (arr, false) :=
      copyLoop_eq 384 0 _ _ (by omega) (by omega)
        (fun m hm => absurd hm (by omega))
    have c2 : copyLoop 382 0 d.bufferedUniforms ([] : List Nat) =
        (d.bufferedUniforms, true) := copyLoop_nil 381 0 _
    simp [DSFMT.set_state, c1, c2]

/-- Witness for the amended C2 at concrete states: a non-dict blob, a
mismatched tag, and a correctly tagged DSFMT blob with an empty
buffered-uniforms array that errors only after mutating the status. -/
theorem restore_rejects_wrong_type_and_tag_witness :
    PCG32.set_state ⟨1, 3⟩ .notDict = (⟨1, 3⟩, some .typeError) ∧
      GJrand.set_state ⟨⟨1, 2, 3, 4⟩, false, 0⟩ (.dict "X" [9, 9, 9, 9] false 0) =
        (⟨⟨1, 2, 3, 4⟩, false, 0⟩, some .valueError) ∧
      DSFMT.set_state ⟨List.replicate 384 0, 0, 382, List.replicate 382 0⟩
          (.dict "DSFMT" (List.replicate 384 1) 5 382 []) =
        (⟨List.replicate 384 1, 5, 382, List.replicate 382 0⟩,
          some .indexError) :=
  ⟨(restore_rejects_wrong_type_and_tag ⟨1, 3⟩ ⟨⟨1, 2, 3, 4⟩, false, 0⟩
      ⟨⟨1, 2, 3, 4⟩, false, 0⟩
      ⟨List.replicate 384 0, 0, 382, List.replicate 382 0⟩).1,
    (restore_rejects_wrong_type_and_tag ⟨1, 3⟩ ⟨⟨1, 2, 3, 4⟩, false, 0⟩
      ⟨⟨1, 2, 3, 4⟩, false, 0⟩
      ⟨List.replicate 384 0, 0, 382, List.replicate 382 0⟩).2.2.2.2.2.1
      "X" [9, 9, 9, 9] false 0 (by decide),
    (restore_rejects_wrong_type_and_tag ⟨1, 3⟩ ⟨⟨1, 2, 3, 4⟩, false, 0⟩
      ⟨⟨1, 2, 3, 4⟩, false, 0⟩
      ⟨List.replicate 384 0, 0, 382, List.replicate 382 0⟩).2.2.2.2.2.2.2.2
      (List.replicate 384 1) 5 382 (by simp) (by simp)⟩

/-- Claim C3: for every engine and every valid state, restoring the state
dict obtained from the getter succeeds, reproduces the state exactly, and
hence any subsequent sequence of draws is bit-identical to drawing
without the round-trip. -/
theorem set_get_roundtrip_identity (p : Pcg32Raw) (g : GjrandState)
    (j : Jsf64State) (d : DsfmtState) (ops ops2 : List DrawOp)
    (h1 : d.status.length = 384) (h2 : d.bufferedUniforms.length = 382) :
    PCG32.set_state p (PCG32.get_state p) = (p, none) ∧
      GJrand.set_state g (GJrand.get_state g) = (g, none) ∧
      JSF64.set_state j (JSF64.get_state j) = (j, none) ∧
      DSFMT.set_state d (DSFMT.get_state d) = (d, none) ∧
      gjrand_run ops (GJrand.set_state g (GJrand.get_state g)).1 =
        gjrand_run ops g ∧
      jsf64_run ops2 (JSF64.set_state j (JSF64.get_state j)).1 =
        jsf64_run ops2 j := by
  have hg : GJrand.set_state g (GJrand.get_state g) = (g, none) := by
    simp [GJrand.set_state, GJrand.get_state]
  have hj : JSF64.set_state j (JSF64.get_state j) = (j, none) := by
    simp [JSF64.set_state, JSF64.get_state]
  refine ⟨rfl, hg, hj, dsfmt_set_state_copies d d h1 h2 h1 h2, ?_, ?_⟩
  · rw [hg]
  · rw [hj]

/-- Witness for C3 at concrete states of all four engines, with a draw
sequence mixing 32- and 64-bit requests. -/
theorem set_get_roundtrip_identity_witness :
    DSFMT.set_state ⟨List.replicate 384 11, 2, 40, List.replicate 382 6⟩
        (DSFMT.get_state ⟨List.replicate 384 11, 2, 40, List.replicate 382 6⟩) =
      (⟨List.replicate 384 11, 2, 40, List.replicate 382 6⟩, none) ∧
      gjrand_run [.u32, .u64, .u32]
          (GJrand.set_state ⟨⟨1, 2, 3, 4⟩, true, 5⟩
            (GJrand.get_state ⟨⟨1, 2, 3, 4⟩, true, 5⟩)).1 =
        gjrand_run [.u32, .u64, .u32] ⟨⟨1, 2, 3, 4⟩, true, 5⟩ :=
  ⟨(set_get_roundtrip_identity ⟨1, 3⟩ ⟨⟨1, 2, 3, 4⟩, true, 5⟩
      ⟨⟨5, 6, 7, 8⟩, false, 0⟩ ⟨List.replicate 384 11, 2, 40, List.replicate 382 6⟩
      [.u32, .u64, .u32] [] (by simp) (by simp)).2.2.2.1,
    (set_get_roundtrip_identity ⟨1, 3⟩ ⟨⟨1, 2, 3, 4⟩, true, 5⟩
      ⟨⟨5, 6, 7, 8⟩, false, 0⟩ ⟨List.replicate 384 11, 2, 40, List.replicate 382 6⟩
      [.u32, .u64, .u32] [] (by simp) (by simp)).2.2.2.2.1⟩

/-- Claim C5: `PCG32.jumped(jumps)` returns a new engine whose state is
the caller's state advanced by `0x9e3779b97f4a7c16 * jumps` (exactly the
`advance` path, including its modulo-`2^64` reduction of the step count),
and the original engine is returned untouched. -/
theorem pcg32_jumped_is_fixed_advance (fresh st : Pcg32Raw) (jumps : Nat) :
    PCG32.jumped fresh st jumps =
      (st, PCG32.advance st (0x9e3779b97f4a7c16 * jumps)) := by
  simp [PCG32.jumped, PCG32.jump_inplace, PCG32.set_state, PCG32.get_state]

/-- Claim C8: any DSFMT jump — `jump_inplace` with any iteration count,
or `jumped`, whatever the C jump kernel `J` does to the state — ends by
resetting `buffer_loc` to 382, and a draw from a state with
`buffer_loc = 382` takes its value from the freshly regenerated cache,
not from the buffered pre-jump doubles. -/
theorem dsfmt_jump_resets_buffer (J : DsfmtState → DsfmtState)
    (R : List Nat → Int → (List Nat × Int) × List Nat)
    (fresh st : DsfmtState) (iter jumps : Nat)
    (h1 : st.status.length = 384) (h2 : st.bufferedUniforms.length = 382)
    (h3 : fresh.status.length = 384)
    (h4 : fresh.bufferedUniforms.length = 382) :
    (DSFMT.jump_inplace J iter st).bufferLoc = 382 ∧
      (DSFMT.jumped J fresh st jumps).2 = none ∧
      (DSFMT.jumped J fresh st jumps).1.1 = st ∧
      (DSFMT.jumped J fresh st jumps).1.2.bufferLoc = 382 ∧
      (dsfmt_next_double R (DSFMT.jump_inplace J iter st)).1 =
        ((R (DSFMT.jump_inplace J iter st).status
            (DSFMT.jump_inplace J iter st).idx).2).headI := by
  have hset : DSFMT.set_state fresh (DSFMT.get_state st) = (st, none) :=
    dsfmt_set_state_copies fresh st h1 h2 h3 h4
  have hloc : (DSFMT.jump_inplace J iter st).bufferLoc = 382 := rfl
  refine ⟨hloc, ?_, ?_, ?_, ?_⟩
  · simp [DSFMT.jumped, hset]
  · simp [DSFMT.jumped, hset]
  · simp [DSFMT.jumped, hset]
    rfl
  · rw [dsfmt_next_double, if_pos hloc]

/-- Witness for C8 at a concrete state, with the identity as the jump
kernel and a recurrence pass that returns an empty cache. -/
theorem dsfmt_jump_resets_buffer_witness :
    (DSFMT.jump_inplace (fun s => s) 1
        ⟨List.replicate 384 4, 7, 100, List.replicate 382 2⟩).bufferLoc = 382 ∧
      (DSFMT.jumped (fun s => s)
          ⟨List.replicate 384 0, 0, 382, List.replicate 382 0⟩
          ⟨List.replicate 384 4, 7, 100, List.replicate 382 2⟩ 1).1.2.bufferLoc =
        382 :=
  ⟨(dsfmt_jump_resets_buffer (fun s => s) (fun s i => ((s, i), []))
      ⟨List.replicate 384 0, 0, 382, List.replicate 382 0⟩
      ⟨List.replicate 384 4, 7, 100, List.replicate 382 2⟩ 1 1
      (by simp) (by simp) (by simp) (by simp)).1,
    (dsfmt_jump_resets_buffer (fun s => s) (fun s i => ((s, i), []))
      ⟨List.replicate 384 0, 0, 382, List.replicate 382 0⟩
      ⟨List.replicate 384 4, 7, 100, List.replicate 382 2⟩ 1 1
      (by simp) (by simp) (by simp) (by simp)).2.2.2.1⟩

/-- Claim C9: PCG32's `next_raw` is exactly one `next_uint32` draw
zero-extended to 64 bits — in particular every PCG32 raw output is below
`2^32` — while GJrand's and JSF64's `next_raw` is exactly their
`next_uint64`. -/
theorem next_raw_semantics (p : Pcg32Raw) (g : GjrandState) (j : Jsf64State) :
    pcg32_raw p = pcg32_next32 p ∧ (pcg32_raw p).1 < 2 ^ 32 ∧
      gjrand_raw g = gjrand_next64 g ∧ jsf64_raw j = jsf64_next64 j := by
  refine ⟨rfl, ?_, rfl, rfl⟩
  show ror32 _ _ < 2 ^ 32
  exact Nat.mod_lt _ (by norm_num)
